import Mathlib

/-
Verification of check-container-stats (check_container_stats_docker.py and
check_docker_system.py) against its natural-language specification.

The Python sources are shallowly embedded below: every function is translated
into an executable Lean definition, with Python exceptions modelled by an
explicit exception enumeration (PyExc), calls to exit_plugin modelled by the
ExitCall record (return code plus message), and fallible code returning
Except / Option values.
-/

/-- Python exception classes that appear in the two scripts: raised by list.index
(ValueError), dict subscripting (KeyError), integer/float division (ZeroDivisionError)
and the socket layer (FileNotFoundError, PermissionError, TimeoutError/socket.timeout,
ConnectionError). -/
inductive PyExc where
  | valueError
  | keyError
  | zeroDivisionError
  | fileNotFoundError
  | permissionError
  | timeoutError
  | connectionErrorExc
  deriving DecidableEq, Repr

/-- A call to exit_plugin(returncode, output, perfdata): the plugin prints a
status-prefixed message and terminates with the given return code.  The perfdata
suffix is irrelevant to every claim and is folded into msg where needed. -/
structure ExitCall where
  code : Nat
  msg : String
  deriving DecidableEq, Repr

/-- Status prefix printed by exit_plugin (both scripts, lines 70-83 and 255-268):
return code 3 prints UNKNOWN, 2 CRITICAL, 1 WARNING, 0 OK; any other code prints
nothing and exit_plugin falls through. -/
def exit_prefix : Nat → Option String
  | 3 => some "UNKNOWN - "
  | 2 => some "CRITICAL - "
  | 1 => some "WARNING - "
  | 0 => some "OK - "
  | _ => none

/-- set_state from check_container_stats_docker.py lines 223-235; the identical
function also appears in check_docker_system.py lines 240-252.  First argument is
the candidate severity (newstate), second the current severity (state); severities
are the Nagios codes OK=0, WARNING=1, CRITICAL=2, UNKNOWN=3. -/
def set_state (newstate : Nat) (state : Nat) : Nat :=
  if newstate == 2 || state == 2 then 2
  else if newstate == 1 && !(state == 2) then 1
  else if newstate == 3 && !(state == 1 || state == 2) then 3
  else 0

/-- Characters on which Python str.splitlines breaks lines. -/
def isPyLineBreak (c : Char) : Bool :=
  c = '\n' || c = '\r' || c = '\x0b' || c = '\x0c' ||
  c = '\x1c' || c = '\x1d' || c = '\x1e' || c = '\x85' || c = '\u2028' || c = '\u2029'

/-- Accumulator-based model of Python str.splitlines over character lists: a
CRLF pair counts as one break, a trailing break does not create a trailing
empty line, and the empty string yields no lines. -/
def splitlinesAux : List Char → List Char → List (List Char)
  | [], acc => if acc.isEmpty then [] else [acc.reverse]
  | '\r' :: '\n' :: rest, acc => acc.reverse :: splitlinesAux rest []
  | '\r' :: rest, acc => acc.reverse :: splitlinesAux rest []
  | c :: rest, acc =>
    if isPyLineBreak c then acc.reverse :: splitlinesAux rest []
    else splitlinesAux rest (c :: acc)

/-- Python str.splitlines on strings. -/
def pySplitlines (s : String) : List String :=
  (splitlinesAux s.data []).map (fun l => String.mk l)

/-- Model of Python list.index(x): position of the first occurrence, none when
absent (where CPython raises ValueError). -/
def pyIndex (target : String) : List String → Option Nat
  | [] => none
  | x :: rest => if x == target then some 0 else (pyIndex target rest).map (· + 1)

/-- The for-loop in check_valid_response that scans for the first line matching
the JSON opener pattern and breaks at the first hit. -/
def findJsonLine (pred : String → Bool) : List String → Option String
  | [] => none
  | x :: rest => if pred x then some x else findJsonLine pred rest

/-- JSON whitespace accepted by Python json.loads. -/
def jsonWs (c : Char) : Bool := c = ' ' || c = '\t' || c = '\n' || c = '\r'

/-- Skip leading JSON whitespace. -/
def skipWs : List Char → List Char
  | [] => []
  | c :: rest => if jsonWs c then skipWs rest else c :: rest

/-- Consume the remainder of a JSON string literal after the opening quote,
treating a backslash as an escape that consumes the following character. -/
def jsonStringRest : List Char → Option (List Char)
  | [] => none
  | '\"' :: rest => some rest
  | '\\' :: [] => none
  | '\\' :: _ :: rest => jsonStringRest rest
  | _ :: rest => jsonStringRest rest

/-- ASCII digit test for the JSON number grammar. -/
def isJsonDigit (c : Char) : Bool := '0' ≤ c && c ≤ '9'

/-- Consume a maximal run of digits, returning its length and the rest. -/
def takeDigits : List Char → (Nat × List Char)
  | [] => (0, [])
  | c :: rest =>
    if isJsonDigit c then
      let p := takeDigits rest
      (p.1 + 1, p.2)
    else (0, c :: rest)

/-- Optional fractional part of a JSON number. -/
def jsonFrac : List Char → Option (List Char)
  | '.' :: r =>
    match takeDigits r with
    | (0, _) => none
    | (_, r2) => some r2
  | s => some s

/-- Exponent digits (with optional sign) of a JSON number. -/
def jsonExpRest (s : List Char) : Option (List Char) :=
  let s1 := match s with
    | '+' :: r => r
    | '-' :: r => r
    | _ => s
  match takeDigits s1 with
  | (0, _) => none
  | (_, r) => some r

/-- Optional exponent part of a JSON number. -/
def jsonExp : List Char → Option (List Char)
  | 'e' :: r => jsonExpRest r
  | 'E' :: r => jsonExpRest r
  | s => some s

/-- JSON number: optional minus, digits, optional fraction, optional exponent. -/
def jsonNumber (s : List Char) : Option (List Char) :=
  let s1 := match s with
    | '-' :: r => r
    | _ => s
  match takeDigits s1 with
  | (0, _) => none
  | (_, r) => (jsonFrac r).bind jsonExp

mutual

/-- Recursive-descent recognizer for one JSON value, fuelled by an upper bound
on nesting depth; returns the unconsumed rest on success.  Models the grammar
accepted by Python json.loads. -/
def jsonVal (fuel : Nat) (s : List Char) : Option (List Char) :=
  match fuel with
  | 0 => none
  | fuel + 1 =>
    match skipWs s with
    | '{' :: r => jsonObjBody fuel r
    | '[' :: r => jsonArrBody fuel r
    | '\"' :: r => jsonStringRest r
    | 't' :: 'r' :: 'u' :: 'e' :: r => some r
    | 'f' :: 'a' :: 'l' :: 's' :: 'e' :: r => some r
    | 'n' :: 'u' :: 'l' :: 'l' :: r => some r
    | s1 => jsonNumber s1

/-- Object body after the opening brace: empty object or first member. -/
def jsonObjBody (fuel : Nat) (s : List Char) : Option (List Char) :=
  match fuel with
  | 0 => none
  | fuel + 1 =>
    match skipWs s with
    | '}' :: r => some r
    | '\"' :: r =>
      match jsonStringRest r with
      | none => none
      | some r1 =>
        match skipWs r1 with
        | ':' :: r2 =>
          match jsonVal fuel r2 with
          | none => none
          | some r3 => jsonObjSep fuel r3
        | _ => none
    | _ => none

/-- After one object member: comma and next member, or closing brace. -/
def jsonObjSep (fuel : Nat) (s : List Char) : Option (List Char) :=
  match fuel with
  | 0 => none
  | fuel + 1 =>
    match skipWs s with
    | '}' :: r => some r
    | ',' :: r =>
      match skipWs r with
      | '\"' :: r1 =>
        match jsonStringRest r1 with
        | none => none
        | some r2 =>
          match skipWs r2 with
          | ':' :: r3 =>
            match jsonVal fuel r3 with
            | none => none
            | some r4 => jsonObjSep fuel r4
          | _ => none
      | _ => none
    | _ => none

/-- Array body after the opening bracket: empty array or first element. -/
def jsonArrBody (fuel : Nat) (s : List Char) : Option (List Char) :=
  match fuel with
  | 0 => none
  | fuel + 1 =>
    match skipWs s with
    | ']' :: r => some r
    | s1 =>
      match jsonVal fuel s1 with
      | none => none
      | some r => jsonArrSep fuel r

/-- After one array element: comma and next element, or closing bracket. -/
def jsonArrSep (fuel : Nat) (s : List Char) : Option (List Char) :=
  match fuel with
  | 0 => none
  | fuel + 1 =>
    match skipWs s with
    | ']' :: r => some r
    | ',' :: r =>
      match jsonVal fuel r with
      | none => none
      | some r1 => jsonArrSep fuel r1
    | _ => none

end

/-- Model of a successful Python json.loads(s): the whole string is one JSON
value surrounded only by whitespace. -/
def json_loads_ok (s : String) : Bool :=
  match jsonVal (s.length + 1) s.data with
  | some r => (skipWs r).isEmpty
  | none => false

/-- Pattern of the re.match calls in check_valid_response of
check_container_stats_docker.py line 205: the line opens a JSON object or array. -/
def startsJsonContainer (l : String) : Bool :=
  match l.data with
  | '{' :: _ => true
  | '[' :: _ => true
  | _ => false

/-- Pattern of the re.match call in check_valid_response of
check_docker_system.py line 130: only a JSON object opener is recognized. -/
def startsJsonObject (l : String) : Bool :=
  match l.data with
  | '{' :: _ => true
  | _ => false

/-- check_valid_response from check_container_stats_docker.py lines 187-220:
empty buffer is incomplete; otherwise split into lines, locate the first blank
line (list.index, which raises ValueError when absent), drop the header lines
before it, scan for the first line opening a JSON object or array, and declare
the buffer complete exactly when that line parses as JSON. -/
def check_valid_response (buffer : String) : Except PyExc Bool :=
  if buffer.length == 0 then .ok false
  else
    match pyIndex "" (pySplitlines buffer) with
    | none => .error .valueError
    | some start_pos =>
      match findJsonLine startsJsonContainer ((pySplitlines buffer).drop start_pos) with
      | none => .ok false
      | some json_obj => .ok (json_loads_ok json_obj)

/-- check_valid_response from check_docker_system.py lines 113-145: identical to
the container-level version except that only lines starting with a brace are
recognized as the JSON payload. -/
def check_valid_response_sys (buffer : String) : Except PyExc Bool :=
  if buffer.length == 0 then .ok false
  else
    match pyIndex "" (pySplitlines buffer) with
    | none => .error .valueError
    | some start_pos =>
      match findJsonLine startsJsonObject ((pySplitlines buffer).drop start_pos) with
      | none => .ok false
      | some json_obj => .ok (json_loads_ok json_obj)

/-- State of the send_socket_cmd read loop (check_container_stats_docker.py
lines 150-167, check_docker_system.py lines 76-93): still looping with the
accumulated buffer, left the loop with the final buffer, or aborted on an
uncaught exception from the completeness predicate. -/
inductive LoopState where
  | run (buf : String)
  | done (buf : String)
  | exc (e : PyExc)
  deriving DecidableEq, Repr

/-- One iteration of the send_socket_cmd while-loop, given the chunk returned by
sock.recv(1024) for this iteration: an empty chunk with an empty buffer only
sleeps and loops; an empty chunk with data invokes the completeness predicate and
leaves the loop exactly when it returns true; a non-empty chunk is appended. -/
def sockLoopStep (check : String → Except PyExc Bool) (chunk buf : String) : LoopState :=
  if chunk.length == 0 && buf.length == 0 then .run buf
  else if chunk.length == 0 then
    match check buf with
    | .error e => .exc e
    | .ok true => .done buf
    | .ok false => .run buf
  else .run (buf ++ chunk)

/-- The send_socket_cmd read loop after n iterations, starting from the empty
buffer, against a peer whose successive recv results are given by recvs. -/
def sockLoopRun (check : String → Except PyExc Bool) (recvs : Nat → String) : Nat → LoopState
  | 0 => .run ""
  | n + 1 =>
    match sockLoopRun check recvs n with
    | .run buf => sockLoopStep check (recvs n) buf
    | s => s

/-- Transport-level failures caught around send_socket_cmd (both scripts):
the four except clauses at check_container_stats_docker.py lines 175-182 and
check_docker_system.py lines 101-108.  ConnectionError carries the stringified
exception err interpolated into its message. -/
inductive SockFail where
  | fileNotFound
  | permissionDenied
  | timedOut
  | connError (err : String)
  deriving DecidableEq, Repr

/-- The exit_plugin call issued by each except clause of send_socket_cmd,
with the exact f-string messages from the source. -/
def sockFailExit (socketfile : String) : SockFail → ExitCall
  | .fileNotFound => ⟨3, "Socket file " ++ socketfile ++ " not found!"⟩
  | .permissionDenied => ⟨3, "Access to socket file " ++ socketfile ++ " denied!"⟩
  | .timedOut => ⟨3, "Connection to socket " ++ socketfile ++ " timed out!"⟩
  | .connError err => ⟨3, "Error during socket connection: " ++ err⟩

/-- Exception classes caught by the try/except around send_socket_cmd:
FileNotFoundError, PermissionError, TimeoutError/socket.timeout, ConnectionError. -/
def send_socket_catches (e : PyExc) : Bool :=
  e == .fileNotFoundError || e == .permissionError ||
  e == .timeoutError || e == .connectionErrorExc

/-- Exception class caught by the try/except wrapping the body of
calc_container_metrics (check_container_stats_docker.py lines 355-356): KeyError only. -/
def calc_metrics_catches (e : PyExc) : Bool :=
  e == .keyError

/-- Substring test on character lists: the needle occurs contiguously in the hay. -/
def containsChars (needle : List Char) : List Char → Bool
  | [] => needle.isEmpty
  | c :: rest => needle.isPrefixOf (c :: rest) || containsChars needle rest

/-- Substring test on strings, used to state that a message carries a value. -/
def strContains (hay needle : String) : Bool :=
  containsChars needle.data hay.data

/-- Memory derivation block of calc_container_metrics
(check_container_stats_docker.py lines 322-333): for a running container prefer
the cgroup-v2 field inactive_file, fall back to the cgroup-v1 field
total_inactive_file, and abort via exit_plugin(2, ...) when both are absent;
for a non-running container the value stays 0. -/
def calc_used_memory (state : String) (usage : Int)
    (inactive_file total_inactive_file : Option Int) : Except ExitCall Int :=
  if state == "running" then
    match inactive_file with
    | some v => .ok (usage - v)
    | none =>
      match total_inactive_file with
      | some v => .ok (usage - v)
      | none =>
        .error ⟨2, "Docker API output did neither contain memory values for cgroupv1 nor cgroupv2"⟩
  else .ok 0

/-- CPU-count resolution of calc_container_metrics lines 310-313: a truthy
online_cpus field wins (0 and absence are falsy), otherwise the length of
percpu_usage, whose absence raises KeyError. -/
def resolve_cpu_count (online_cpus : Option Int) (percpu : Option (List Int)) :
    Except PyExc Int :=
  match online_cpus with
  | some n =>
    if n ≠ 0 then .ok n
    else
      match percpu with
      | some l => .ok (l.length : Int)
      | none => .error .keyError
  | none =>
    match percpu with
    | some l => .ok (l.length : Int)
    | none => .error .keyError

/-- CPU-percent derivation block of calc_container_metrics lines 306-317: for a
running container, usage deltas are divided by the system-wide delta and scaled
by the CPU count; the division is unguarded, so a zero system delta raises
ZeroDivisionError (after the CPU count has been resolved, matching evaluation
order).  For a non-running container the result is 0.  The subsequent rounding
to two decimal places is irrelevant to the claims and omitted. -/
def calc_cpu_pct (state : String)
    (total_usage pre_total_usage system_cpu_usage pre_system_cpu_usage : Int)
    (online_cpus : Option Int) (percpu : Option (List Int)) : Except PyExc ℚ :=
  if state == "running" then
    let cpu_delta : ℚ := (total_usage : ℚ) - (pre_total_usage : ℚ)
    let system_cpu_delta : ℚ := (system_cpu_usage : ℚ) - (pre_system_cpu_usage : ℚ)
    match resolve_cpu_count online_cpus percpu with
    | .error e => .error e
    | .ok cpu_count =>
      if system_cpu_delta = 0 then .error .zeroDivisionError
      else .ok (cpu_delta / system_cpu_delta * (cpu_count : ℚ) * 100)
  else .ok 0

/-- Message of the non-200 abort in send_http_get of
check_container_stats_docker.py lines 125-127. -/
def container_http_err_msg (endpoint apiver : String) (status : Int) (body : String) : String :=
  "Daemon API v" ++ apiver ++ " returned HTTP " ++ toString status ++
  " while fetching " ++ endpoint ++ ": " ++ body

/-- Status check in send_http_get of check_container_stats_docker.py lines
124-128: any status other than 200 aborts via exit_plugin(2, ...). -/
def http_status_abort_container (endpoint apiver : String) (status : Int) (body : String) :
    Option ExitCall :=
  if status ≠ 200 then some ⟨2, container_http_err_msg endpoint apiver status body⟩
  else none

/-- Message of the non-200 abort in main of check_docker_system.py lines 286/288. -/
def system_http_err_msg (status : Int) (body : String) : String :=
  "Docker socket returned HTTP " ++ toString status ++ ": " ++ body

/-- Status check in main of check_docker_system.py lines 285-288: a status not
in [200] aborts via exit_plugin(3, ...), for each of the two endpoint calls. -/
def http_status_abort_system (status : Int) (body : String) : Option ExitCall :=
  if status ∈ ([200] : List Int) then none
  else some ⟨3, system_http_err_msg status body⟩

/-- One element of the /containers/json response, keeping the only field
get_container_from_name inspects: the Names list. -/
structure CntInfo where
  names : List String
  deriving DecidableEq, Repr

/-- get_container_from_name from check_container_stats_docker.py lines 256-281,
as a function of the wildcard flag, the container name and the JSON list
returned by the name-filtered /containers/json query: empty list aborts with
the no-match message; in wildcard mode more than one result aborts with the
multiple-match message and a single result is returned untested; in exact mode
the for-loop keeps the last element whose Names contain the slash-prefixed
name, aborting with the no-match message when none does. -/
def get_container_from_name (wildcard : Bool) (container_name : String)
    (resp : List CntInfo) : Except ExitCall CntInfo :=
  if resp.length = 0 then
    .error ⟨2, "No container matched name " ++ container_name⟩
  else if wildcard = true ∧ resp.length > 1 then
    .error ⟨2, "Multiple containers matched wildcard name " ++ container_name⟩
  else if wildcard = true then
    match resp with
    | c :: _ => .ok c
    | [] => .error ⟨2, "No container matched name " ++ container_name⟩
  else
    match (resp.filter (fun k => k.names.contains ("/" ++ container_name))).getLast? with
    | some k => .ok k
    | none => .error ⟨2, "No container matched name " ++ container_name⟩

/-- A non-empty string has a length whose equality test against 0 is false. -/
theorem length_beq_zero_eq_false (s : String) (h : s ≠ "") : (s.length == 0) = false := by
  cases s with
  | mk data =>
    cases data with
    | nil => exact absurd rfl h
    | cons c cs => rfl

/-- A list is a Boolean prefix of itself followed by anything. -/
theorem isPrefixOf_append_self : ∀ (n post : List Char), n.isPrefixOf (n ++ post) = true := by
  intro n post
  induction n with
  | nil => simp [ List.isPrefixOf]
  | cons c cs ih => simp [ List.isPrefixOf, ih]

/-- containsChars always holds for the empty needle. -/
theorem containsChars_nil : ∀ (hay : List Char), containsChars [] hay = true := by
  intro hay
  cases hay with
  | nil => rfl
  | cons c r => simp [containsChars, List.isPrefixOf]

/-- A needle occurs in itself followed by anything. -/
theorem containsChars_self_append : ∀ (needle post : List Char),
    containsChars needle (needle ++ post) = true := by
  intro needle post
  cases needle with
  | nil => exact containsChars_nil _
  | cons c cs =>
    simp only [List.cons_append, containsChars, List.append_eq]
    have h : (c :: cs).isPrefixOf (c :: (cs ++ post)) = true := by
      simp [ List.isPrefixOf, isPrefixOf_append_self]
    rw [h]
    simp

/-- A needle occurs in any hay of the shape pre ++ (needle ++ post). -/
theorem containsChars_mid : ∀ (pre needle post : List Char),
    containsChars needle (pre ++ (needle ++ post)) = true := by
  intro pre needle post
  induction pre with
  | nil => rw [List.nil_append]; exact containsChars_self_append needle post
  | cons c cs ih =>
    simp only [List.cons_append, containsChars, List.append_eq]
    rw [ih]
    simp

/-- A needle occurs at the end of pre ++ needle. -/
theorem containsChars_suffix (pre needle : List Char) :
    containsChars needle (pre ++ needle) = true := by
  have h := containsChars_mid pre needle []
  rwa [List.append_nil] at h

/-- String append distributes over the data field. -/
theorem str_data_append (s t : String) : (s ++ t).data = s.data ++ t.data := rfl

/-- pyIndex finds the first blank line right after a block of non-blank header lines. -/
theorem pyIndex_headers (rest : List String) :
    ∀ (headers : List String), (∀ h ∈ headers, h ≠ "") →
      pyIndex "" (headers ++ "" :: rest) = some headers.length := by
  intro headers
  induction headers with
  | nil => intro _; simp [pyIndex]
  | cons h t ih =>
    intro hne
    have hh : (h == "") = false :=
      beq_eq_false_iff_ne.mpr (hne h (List.mem_cons_self h t))
    simp [pyIndex, hh, ih (fun x hx => hne x (List.mem_cons_of_mem h hx))]

/-- pyIndex returns none when the target occurs nowhere. -/
theorem pyIndex_eq_none : ∀ (l : List String), (∀ x ∈ l, x ≠ "") → pyIndex "" l = none := by
  intro l
  induction l with
  | nil => intro _; rfl
  | cons h t ih =>
    intro hne
    have hh : (h == "") = false :=
      beq_eq_false_iff_ne.mpr (hne h (List.mem_cons_self h t))
    simp [pyIndex, hh, ih (fun x hx => hne x (List.mem_cons_of_mem h hx))]

/-- Claim C1 counterexample: the claim states combine(OK, WARNING) = WARNING and
combine(WARNING, UNKNOWN) = WARNING, where combine(current, candidate) is
set_state candidate current.  The second equation is false: set_state 3 1 = 0,
so the conjunction fails. -/
theorem claim_C1_counterexample :
    ¬ (set_state 1 0 = 1 ∧ set_state 3 1 = 1) := by
  decide

/-- Claim C1 amended: combine(OK, WARNING) = WARNING holds, but a candidate
UNKNOWN folded into a current WARNING yields OK, not WARNING: the code never
returns UNKNOWN over a definite WARNING, yet it resets the state to OK rather
than preserving the WARNING. -/
theorem claim_C1_amended :
    set_state 1 0 = 1 ∧ set_state 3 1 = 0 := by
  decide

/-- Claim C5 counterexample: the claim states combine(s, OK) = s for every
current severity s, i.e. set_state 0 s = s.  This fails at s = WARNING (1) and
at s = UNKNOWN (3): both collapse to OK. -/
theorem claim_C5_counterexample :
    set_state 0 1 ≠ 1 ∧ set_state 0 3 ≠ 3 := by
  decide

/-- Claim C5 amended: folding an OK candidate preserves the current severity
only for OK and CRITICAL; a current WARNING or UNKNOWN is reset to OK by the
final else branch of set_state. -/
theorem claim_C5_amended :
    set_state 0 0 = 0 ∧ set_state 0 2 = 2 ∧ set_state 0 1 = 0 ∧ set_state 0 3 = 0 := by
  decide

/-- Claim C2: the read loop of send_socket_cmd does not terminate against a peer
that closed without sending data.  With every recv returning zero bytes and the
buffer empty, the loop state after any number n of iterations is still running
with the empty buffer: it never reaches the done state (nor any exception), so
the exchange neither returns nor fails, contradicting the claimed bounded
wait or overall timeout.  The hardcoded sock.settimeout(3) never fires because
recv on a closed connection returns empty immediately, and the --timeout
argument of the container-level script is parsed but never used. -/
theorem claim_C2_nontermination :
    ∀ (n : Nat), sockLoopRun check_valid_response (fun _ => "") n = .run "" := by
  intro n
  induction n with
  | zero => rfl
  | succ n ih =>
    simp only [sockLoopRun, ih]
    rfl

/-- Claim C3 counterexample: the claim states that a non-2xx status aborts with
CRITICAL in both checks; at status 500 the engine-level check aborts with
return code 3, which maps to UNKNOWN, not CRITICAL. -/
theorem claim_C3_counterexample :
    (http_status_abort_system 500 "x").map ExitCall.code = some 3 ∧
    (http_status_abort_system 500 "x").map ExitCall.code ≠ some 2 ∧
    exit_prefix 3 = some "UNKNOWN - " := by
  refine ⟨rfl, by decide, rfl⟩

/-- Claim C3 amended: whenever the parsed envelope carries a non-2xx status,
both checks abort and carry the daemon status code and JSON error body in the
message, but the container-level check aborts with CRITICAL (return code 2)
while the engine-level check aborts with UNKNOWN (return code 3). -/
theorem claim_C3_amended :
    ∀ (status : Int) (endpoint apiver body : String),
      ¬(200 ≤ status ∧ status < 300) →
      http_status_abort_container endpoint apiver status body =
        some ⟨2, container_http_err_msg endpoint apiver status body⟩ ∧
      http_status_abort_system status body = some ⟨3, system_http_err_msg status body⟩ ∧
      exit_prefix 2 = some "CRITICAL - " ∧ exit_prefix 3 = some "UNKNOWN - " ∧
      strContains (container_http_err_msg endpoint apiver status body) body = true ∧
      strContains (system_http_err_msg status body) body = true := by
  intro status endpoint apiver body hne
  have h200 : status ≠ 200 := by omega
  refine ⟨by simp [http_status_abort_container, h200],
          by simp [http_status_abort_system, h200], rfl, rfl, ?_, ?_⟩
  · simp only [strContains, container_http_err_msg, str_data_append]
    exact containsChars_suffix _ _
  · simp only [strContains, system_http_err_msg, str_data_append]
    exact containsChars_suffix _ _

/-- Claim C3 witness: the amended statement instantiated at status 500. -/
theorem claim_C3_witness :
    http_status_abort_container "/info" "1.45" 500 "oops" =
      some ⟨2, container_http_err_msg "/info" "1.45" 500 "oops"⟩ ∧
    http_status_abort_system 500 "oops" = some ⟨3, system_http_err_msg 500 "oops"⟩ ∧
    exit_prefix 2 = some "CRITICAL - " ∧ exit_prefix 3 = some "UNKNOWN - " ∧
    strContains (container_http_err_msg "/info" "1.45" 500 "oops") "oops" = true ∧
    strContains (system_http_err_msg 500 "oops") "oops" = true :=
  claim_C3_amended 500 "/info" "1.45" "oops" (by omega)

/-- Claim C4 counterexample: the claim states the predicate turns true once a
line holding any syntactically valid JSON value is appended after the blank
line.  The bare number 5 is a syntactically valid JSON value (json.loads
accepts it), yet the predicate stays false because it only recognizes lines
opening a JSON object or array; likewise the engine-level variant stays false
on a valid JSON array because it only recognizes object openers. -/
theorem claim_C4_counterexample :
    json_loads_ok "5" = true ∧
    check_valid_response "HTTP/1.1 200 OK\r\n\r\n5" = .ok false ∧
    json_loads_ok "[1]" = true ∧
    check_valid_response_sys "HTTP/1.1 200 OK\r\n\r\n[1]" = .ok false := by
  refine ⟨by decide, rfl, by decide, rfl⟩

/-- Claim C4 amended: on a buffer holding only non-blank header lines followed
by a blank line both completeness predicates return false; appending after the
blank line a JSON-parseable line that opens an object or array (container-level
check), or an object (engine-level check), makes the respective predicate true.
A valid JSON value that opens otherwise (for example a bare number) is not
recognized.  Buffers are characterized through their Python splitlines image. -/
theorem claim_C4_amended :
    (∀ (buffer : String) (headers : List String),
      buffer ≠ "" → pySplitlines buffer = headers ++ [""] → (∀ h ∈ headers, h ≠ "") →
      check_valid_response buffer = .ok false ∧ check_valid_response_sys buffer = .ok false) ∧
    (∀ (buffer : String) (headers : List String) (line : String),
      buffer ≠ "" → pySplitlines buffer = headers ++ ["", line] → (∀ h ∈ headers, h ≠ "") →
      startsJsonContainer line = true → json_loads_ok line = true →
      check_valid_response buffer = .ok true) ∧
    (∀ (buffer : String) (headers : List String) (line : String),
      buffer ≠ "" → pySplitlines buffer = headers ++ ["", line] → (∀ h ∈ headers, h ≠ "") →
      startsJsonObject line = true → json_loads_ok line = true →
      check_valid_response_sys buffer = .ok true) := by
  refine ⟨?_, ?_, ?_⟩
  · intro buffer headers hne hsplit hh
    have h0 : (buffer.length == 0) = false := length_beq_zero_eq_false buffer hne
    have hidx : pyIndex "" (pySplitlines buffer) = some headers.length := by
      rw [hsplit]; exact pyIndex_headers [] headers hh
    have hdrop : (pySplitlines buffer).drop headers.length = [""] := by
      rw [hsplit]; exact List.drop_left headers [""]
    have hfind1 : findJsonLine startsJsonContainer ([""] : List String) = none := rfl
    have hfind2 : findJsonLine startsJsonObject ([""] : List String) = none := rfl
    constructor
    · simp [check_valid_response, h0, hidx, hdrop, hfind1]
    · simp [check_valid_response_sys, h0, hidx, hdrop, hfind2]
  · intro buffer headers line hne hsplit hh hstart hjson
    have h0 : (buffer.length == 0) = false := length_beq_zero_eq_false buffer hne
    have hidx : pyIndex "" (pySplitlines buffer) = some headers.length := by
      rw [hsplit]; exact pyIndex_headers [line] headers hh
    have hdrop : (pySplitlines buffer).drop headers.length = ["", line] := by
      rw [hsplit]; exact List.drop_left headers ["", line]
    have hfind : findJsonLine startsJsonContainer ("" :: [line]) = some line := by
      simp [findJsonLine, hstart, show startsJsonContainer "" = false from rfl]
    simp [check_valid_response, h0, hidx, hdrop, hfind, hjson]
  · intro buffer headers line hne hsplit hh hstart hjson
    have h0 : (buffer.length == 0) = false := length_beq_zero_eq_false buffer hne
    have hidx : pyIndex "" (pySplitlines buffer) = some headers.length := by
      rw [hsplit]; exact pyIndex_headers [line] headers hh
    have hdrop : (pySplitlines buffer).drop headers.length = ["", line] := by
      rw [hsplit]; exact List.drop_left headers ["", line]
    have hfind : findJsonLine startsJsonObject ("" :: [line]) = some line := by
      simp [findJsonLine, hstart, show startsJsonObject "" = false from rfl]
    simp [check_valid_response_sys, h0, hidx, hdrop, hfind, hjson]

/-- Claim C4 witness: the amended statement instantiated on a concrete header
block, blank line and appended empty JSON object. -/
theorem claim_C4_witness :
    check_valid_response "HTTP/1.1 200 OK\r\n\r\n" = .ok false ∧
    check_valid_response "HTTP/1.1 200 OK\r\n\r\n\x7b\x7d" = .ok true ∧
    check_valid_response_sys "HTTP/1.1 200 OK\r\n\r\n\x7b\x7d" = .ok true :=
  ⟨(claim_C4_amended.1 _ ["HTTP/1.1 200 OK"] (by decide) (by decide) (by decide)).1,
   claim_C4_amended.2.1 _ ["HTTP/1.1 200 OK"] "\x7b\x7d"
     (by decide) (by decide) (by decide) (by decide) (by decide),
   claim_C4_amended.2.2 _ ["HTTP/1.1 200 OK"] "\x7b\x7d"
     (by decide) (by decide) (by decide) (by decide) (by decide)⟩

/-- Claim C9: for every non-empty buffer whose splitlines image holds no empty
line (headers still arriving, the blank header/body separator not yet
received), both completeness predicates abort with the ValueError raised by
list.index of the empty string, and ValueError is not among the exception
classes caught by the try/except around send_socket_cmd. -/
theorem claim_C9_index_exception :
    ∀ (buffer : String), buffer ≠ "" → (∀ l ∈ pySplitlines buffer, l ≠ "") →
      check_valid_response buffer = .error .valueError ∧
      check_valid_response_sys buffer = .error .valueError ∧
      send_socket_catches .valueError = false := by
  intro buffer hne hl
  have h0 : (buffer.length == 0) = false := length_beq_zero_eq_false buffer hne
  have hidx : pyIndex "" (pySplitlines buffer) = none := pyIndex_eq_none _ hl
  exact ⟨by simp [check_valid_response, h0, hidx],
         by simp [check_valid_response_sys, h0, hidx], rfl⟩

/-- Claim C9 witness: a lone status line with no blank separator. -/
theorem claim_C9_witness :
    check_valid_response "HTTP/1.1 200 OK" = .error .valueError ∧
    check_valid_response_sys "HTTP/1.1 200 OK" = .error .valueError ∧
    send_socket_catches .valueError = false :=
  claim_C9_index_exception "HTTP/1.1 200 OK" (by decide) (by decide)

/-- Claim C6 counterexample: the claim states exact mode requires exactly one
name match over the filtered result set or fails with the no-match message; on
a result set where two entries match the exact name, the code neither fails nor
enforces uniqueness — it returns the last matching entry. -/
theorem claim_C6_counterexample :
    (([⟨["/foo"]⟩, ⟨["/foo", "/bar"]⟩] : List CntInfo).filter
        (fun k => k.names.contains ("/" ++ "foo"))).length = 2 ∧
    get_container_from_name false "foo" [⟨["/foo"]⟩, ⟨["/foo", "/bar"]⟩] =
      .ok ⟨["/foo", "/bar"]⟩ := by
  refine ⟨by decide, rfl⟩

/-- Claim C6 amended: an empty filtered result set aborts with the no-match
message in both modes; wildcard mode aborts with the multiple-match message on
more than one result and returns the single result untested otherwise, never
performing exact-name disambiguation; exact mode returns the last entry whose
Names list holds the slash-prefixed container name (requiring at least one
match, not exactly one), aborting with the no-match message when none does. -/
theorem claim_C6_amended :
    (∀ (wildcard : Bool) (container_name : String),
      get_container_from_name wildcard container_name [] =
        .error ⟨2, "No container matched name " ++ container_name⟩) ∧
    (∀ (container_name : String) (c : CntInfo) (rest : List CntInfo), rest ≠ [] →
      get_container_from_name true container_name (c :: rest) =
        .error ⟨2, "Multiple containers matched wildcard name " ++ container_name⟩) ∧
    (∀ (container_name : String) (c : CntInfo),
      get_container_from_name true container_name [c] = .ok c) ∧
    (∀ (container_name : String) (resp : List CntInfo), resp ≠ [] →
      (resp.filter (fun k => k.names.contains ("/" ++ container_name))).getLast? = none →
      get_container_from_name false container_name resp =
        .error ⟨2, "No container matched name " ++ container_name⟩) ∧
    (∀ (container_name : String) (resp : List CntInfo) (c : CntInfo), resp ≠ [] →
      (resp.filter (fun k => k.names.contains ("/" ++ container_name))).getLast? = some c →
      get_container_from_name false container_name resp = .ok c) := by
  refine ⟨?_, ?_, ?_, ?_, ?_⟩
  · intro w container_name
    simp [get_container_from_name]
  · intro container_name c rest hne
    have hlen : (c :: rest).length > 1 := by
      cases rest with
      | nil => exact absurd rfl hne
      | cons _ _ => simp
    simp [get_container_from_name, hlen, hne]
  · intro container_name c
    simp [get_container_from_name]
  · intro container_name resp hne hlast
    have hlen : ¬ resp.length = 0 := fun h => hne (List.length_eq_zero.mp h)
    unfold get_container_from_name
    rw [if_neg hlen, if_neg (by simp), if_neg (by simp), hlast]
  · intro container_name resp c hne hlast
    have hlen : ¬ resp.length = 0 := fun h => hne (List.length_eq_zero.mp h)
    unfold get_container_from_name
    rw [if_neg hlen, if_neg (by simp), if_neg (by simp), hlast]

/-- Claim C6 witness: the amended statement instantiated on concrete result sets. -/
theorem claim_C6_witness :
    get_container_from_name true "web" [] = .error ⟨2, "No container matched name web"⟩ ∧
    get_container_from_name true "web" [⟨["/web1"]⟩, ⟨["/web2"]⟩] =
      .error ⟨2, "Multiple containers matched wildcard name web"⟩ ∧
    get_container_from_name true "web" [⟨["/web1"]⟩] = .ok ⟨["/web1"]⟩ ∧
    get_container_from_name false "web" [⟨["/api"]⟩] =
      .error ⟨2, "No container matched name web"⟩ ∧
    get_container_from_name false "web" [⟨["/api"]⟩, ⟨["/web"]⟩] = .ok ⟨["/web"]⟩ :=
  ⟨claim_C6_amended.1 true "web",
   claim_C6_amended.2.1 "web" ⟨["/web1"]⟩ [⟨["/web2"]⟩] (by decide),
   claim_C6_amended.2.2.1 "web" ⟨["/web1"]⟩,
   claim_C6_amended.2.2.2.1 "web" [⟨["/api"]⟩] (by decide) (by decide),
   claim_C6_amended.2.2.2.2 "web" [⟨["/api"]⟩, ⟨["/web"]⟩] ⟨["/web"]⟩ (by decide) (by decide)⟩

/-- Claim C7: for any usage counter, a running container whose memory stats lack
both inactive_file and total_inactive_file makes memory derivation abort with a
CRITICAL (return code 2) shape error naming the unsupported cgroup layouts; in
particular it never returns a memory-used value, let alone 0. -/
theorem claim_C7_mem_shape_error :
    ∀ (usage : Int),
      calc_used_memory "running" usage none none =
        .error ⟨2, "Docker API output did neither contain memory values for cgroupv1 nor cgroupv2"⟩ ∧
      calc_used_memory "running" usage none none ≠ .ok 0 ∧
      exit_prefix 2 = some "CRITICAL - " ∧
      strContains "Docker API output did neither contain memory values for cgroupv1 nor cgroupv2"
        "cgroup" = true := by
  intro usage
  have h1 : calc_used_memory "running" usage none none =
      .error ⟨2, "Docker API output did neither contain memory values for cgroupv1 nor cgroupv2"⟩ :=
    rfl
  refine ⟨h1, ?_, rfl, by decide⟩
  rw [h1]
  simp

/-- Claim C8 counterexample: the claim states every transport failure message
carries both the socket path and the underlying cause; the ConnectionError
branch interpolates only the stringified error, so its message does not contain
the socket path. -/
theorem claim_C8_counterexample :
    strContains (sockFailExit "/var/run/docker.sock"
        (.connError "Connection reset by peer")).msg "/var/run/docker.sock" = false := by
  decide

/-- Claim C8 amended: all four transport-level failures are fatal with return
code 3, surfaced as UNKNOWN; the missing-socket, permission-denied and timeout
messages carry the socket path (and state the cause textually), and the generic
connection-error message carries the stringified underlying error — but not the
socket path. -/
theorem claim_C8_amended :
    ∀ (socketfile err : String),
      (sockFailExit socketfile .fileNotFound).code = 3 ∧
      (sockFailExit socketfile .permissionDenied).code = 3 ∧
      (sockFailExit socketfile .timedOut).code = 3 ∧
      (sockFailExit socketfile (.connError err)).code = 3 ∧
      exit_prefix 3 = some "UNKNOWN - " ∧
      strContains (sockFailExit socketfile .fileNotFound).msg socketfile = true ∧
      strContains (sockFailExit socketfile .permissionDenied).msg socketfile = true ∧
      strContains (sockFailExit socketfile .timedOut).msg socketfile = true ∧
      strContains (sockFailExit socketfile (.connError err)).msg err = true := by
  intro socketfile err
  refine ⟨rfl, rfl, rfl, rfl, rfl, ?_, ?_, ?_, ?_⟩
  · simp only [sockFailExit, strContains, str_data_append, List.append_assoc]
    exact containsChars_mid _ _ _
  · simp only [sockFailExit, strContains, str_data_append, List.append_assoc]
    exact containsChars_mid _ _ _
  · simp only [sockFailExit, strContains, str_data_append, List.append_assoc]
    exact containsChars_mid _ _ _
  · simp only [sockFailExit, strContains, str_data_append]
    exact containsChars_suffix _ _

/-- Claim C10: whenever the container state is running and the current and
previous system_cpu_usage samples are equal, the unguarded division in the
CPU-percent derivation raises ZeroDivisionError (provided the CPU count
resolved beforehand, i.e. online_cpus or percpu_usage is available, otherwise a
KeyError is raised first), and the surrounding handler, which catches only
KeyError, does not catch it. -/
theorem claim_C10_zero_division :
    ∀ (total_usage pre_total_usage system_cpu_usage : Int)
      (online_cpus : Option Int) (percpu : Option (List Int)) (cnt : Int),
      resolve_cpu_count online_cpus percpu = .ok cnt →
      calc_cpu_pct "running" total_usage pre_total_usage
        system_cpu_usage system_cpu_usage online_cpus percpu = .error .zeroDivisionError ∧
      calc_metrics_catches .zeroDivisionError = false := by
  intro total_usage pre_total_usage system_cpu_usage online_cpus percpu cnt h
  refine ⟨?_, rfl⟩
  simp [calc_cpu_pct, h, sub_self]

/-- Claim C10 witness: concrete stats sample with equal system counters and an
explicit online_cpus field. -/
theorem claim_C10_witness :
    calc_cpu_pct "running" 100 50 7 7 (some 4) none = .error .zeroDivisionError ∧
    calc_metrics_catches .zeroDivisionError = false :=
  claim_C10_zero_division 100 50 7 (some 4) none 4 rfl
